import Mathlib

/-!
Shallow embedding of the core pipeline of `action-s710-weather.py`:
the time-expression resolver (`get_timerange` with its helpers), the
weather-record selector (`select_weather`) and the response handlers
(`process_forecast`, `process_temperature`, `process_has`,
`process_response`).

Modelling conventions:
* Timestamps are integer Unix seconds; `datetime.fromtimestamp` and
  `datetime.timestamp` are modelled as a timezone-free clock, so a
  `replace` of the time-of-day fields becomes arithmetic relative to
  the start of the day.
* Python floats (temperatures, probabilities) are modelled as
  rationals; Python `round` is round-half-to-even.
* Python strings that the source compares with `is` are modelled as a
  value together with an object identity (`PyStr`); `==` compares the
  values, `is` compares value and identity.
* Fallible code (exceptions, implicit `None` returns) is modelled with
  `Option`; record fields that every relevant code path reads
  unconditionally are total, the precipitation fields, whose presence
  the source tests with `in`, are optional.
-/

/-- `needle` occurs contiguously in `hay`. -/
def charsInfix (needle : List Char) : List Char → Bool
  | [] => needle.isEmpty
  | c :: t => needle.isPrefixOf (c :: t) || charsInfix needle t

/-- Substring containment: Python's `needle in hay` on strings. -/
def containsSub (hay needle : String) : Bool :=
  charsInfix needle.data hay.data

/-- Python's `s.endswith(suffix)`. -/
def strEndsWith (s suffix : String) : Bool :=
  suffix.data.reverse.isPrefixOf s.data.reverse

/-- A Python string object: contents plus object identity. Code literals and
JSON-parsed strings of equal contents may differ in identity. -/
structure PyStr where
  val : String
  addr : Nat
deriving DecidableEq

/-- Python `a is b` on strings: the same object, hence equal contents and
equal address. -/
def pyIs (a b : PyStr) : Bool :=
  a.val == b.val && a.addr == b.addr

/-- The interned literal `'rain'` appearing in the source text. -/
def litRain : PyStr := ⟨"rain", 1⟩

/-- The interned literal `'snow'` appearing in the source text. -/
def litSnow : PyStr := ⟨"snow", 2⟩

/-- The interned literal `'sun'` appearing in the source text. -/
def litSun : PyStr := ⟨"sun", 3⟩

/-- The interned literal `'cloudy'` appearing in the source text. -/
def litCloudy : PyStr := ⟨"cloudy", 4⟩

/-- Midnight of the day containing `t`: `datetime.fromtimestamp(t)` with the
time-of-day fields replaced by zero, back as a timestamp. -/
def floorDay (t : Int) : Int := 86400 * (t / 86400)

/-- `datetime.fromtimestamp(t).replace` with hour `h`, minute `m`, second `s`,
back as a timestamp. -/
def setTime (t : Int) (h m s : Int) : Int := floorDay t + h * 3600 + m * 60 + s

/-- Python `datetime.weekday()`: Monday is 0; day 0 of the epoch was a
Thursday. -/
def pyWeekday (t : Int) : Int := (t / 86400 + 3) % 7

/-- `self.weekdays` from the source. -/
def weekdays : List String :=
  ["montag", "dienstag", "mittwoch", "donnerstag", "freitag", "samstag", "sonntag"]

/-- `self.day_range_symbols` from the source; also the canonical keyword
order named by the specification. -/
def day_range_symbols : List String :=
  ["früh", "vormittag", "mittag", "nachmittag", "abend", "nacht"]

/-- Python `str.capitalize`: first character upper-cased, rest lower-cased
(ASCII handling suffices for the weekday names it is applied to). -/
def capitalize (s : String) : String :=
  match s.data with
  | [] => s
  | c :: cs => String.mk (c.toUpper :: cs.map Char.toLower)

/-- `self.weekdays[dt.weekday()]` for the day of timestamp `t`. -/
def weekdayName (t : Int) : String := weekdays.getD (pyWeekday t).toNat ("")

/-- Two-digit decimal rendering, one field of `strftime` output. -/
def two_digits (n : Int) : String := if n < 10 then "0" ++ toString n else toString n

/-- `dt.strftime` with format `"%H:%M Uhr"` for a timestamp. -/
def fmtHM (t : Int) : String :=
  two_digits (t % 86400 / 3600) ++ ":" ++ two_digits (t % 3600 / 60) ++ " Uhr"

/-- Python `round` to an integer: round half to even. The quantity
`2 * q.num - 2 * q.floor * q.den` is twice the fractional part of `q`
scaled by the positive denominator, so comparing it against `q.den`
compares the fractional part against one half in integer arithmetic. -/
def pyRound (q : ℚ) : Int :=
  if 2 * q.num - 2 * q.floor * (q.den : Int) < (q.den : Int) then q.floor
  else if (q.den : Int) < 2 * q.num - 2 * q.floor * (q.den : Int) then q.floor + 1
  else if q.floor % 2 = 0 then q.floor else q.floor + 1

/-- Python `min` over a list of floats. The handlers call it on nonempty
lists only, so the default for the empty list is never reached. -/
def listMin : List ℚ → ℚ
  | [] => 0
  | x :: xs => xs.foldl min x

/-- Python `max` over a list of floats, nonempty in every reached call. -/
def listMax : List ℚ → ℚ
  | [] => 0
  | x :: xs => xs.foldl max x

/-- Python `", ".join`. -/
def commaJoin : List String → String
  | [] => ""
  | [x] => x
  | x :: xs => x ++ ", " ++ commaJoin xs

/-- The result tuple of `get_timerange`: scale, interval bounds and display
prefix. `scale` keeps the source's string values `"currently"`, `"hourly"`,
`"daily"`. The prefix field is named `pfx` because its source name is a
reserved word in Lean. -/
structure TimeRange where
  scale : String
  tfrom : Option Int
  tto : Option Int
  pfx : String
deriving DecidableEq

/-- One forecast record (an entry of `currently`, `hourly.data` or
`daily.data`). -/
structure WeatherRecord where
  time : Int
  summary : String
  icon : PyStr
  temperature : ℚ
  temperatureMin : ℚ
  temperatureMax : ℚ
  precipType : Option PyStr
  precipProbability : Option ℚ
deriving DecidableEq

/-- The forecast payload with the series the selector reads. -/
structure ForecastPayload where
  currently : WeatherRecord
  hourly : List WeatherRecord
  daily : List WeatherRecord
deriving DecidableEq

/-- Return value of `select_weather`: either `(weather['currently'], None)`
or the pair of range-filtered hourly and daily series. -/
inductive WeatherSelection where
  | current (w : WeatherRecord)
  | ranged (hours days : List WeatherRecord)
deriving DecidableEq

/-- The `offset` computation of `App.get_weekday`: difference of weekday
indices, bumped by 7 when non-positive. -/
def weekdayOffset (day : Nat) (t : Int) : Int :=
  if (day : Int) - pyWeekday t ≤ 0 then (day : Int) - pyWeekday t + 7
  else (day : Int) - pyWeekday t

/-- `App.get_weekday`: the next future occurrence of weekday index `day`,
today excluded, as a whole-day range. -/
def get_weekday (day : Nat) (now : Int) : TimeRange :=
  ⟨"daily",
    some (floorDay now + weekdayOffset day (floorDay now) * 86400),
    some (setTime (floorDay now + weekdayOffset day (floorDay now) * 86400) 23 59 59),
    "am " ++ capitalize (weekdays.getD day (""))⟩

/-- `App.get_day_range`: the whole day of `epoch`. -/
def get_day_range (epoch : Int) (pfx : String) : TimeRange :=
  ⟨"daily", some (setTime epoch 0 0 0), some (setTime epoch 23 59 59), pfx⟩

/-- `App.get_hour_range`: hours `hours_from` to `hours_to` of the day of
`epoch`; `hours_to = -1` encodes 03:00 of the following day. -/
def get_hour_range (epoch : Int) (hours_from hours_to : Int) (pfx : String) : TimeRange :=
  ⟨"hourly",
    some (setTime epoch hours_from 0 0),
    some (if hours_to = -1 then setTime (epoch + 86400) 3 0 0 else setTime epoch hours_to 0 0),
    pfx⟩

/-- `App.get_weekend_range`: Saturday and Sunday of the current week. -/
def get_weekend_range (now : Int) : TimeRange :=
  ⟨"daily",
    some (floorDay now + (5 - pyWeekday (floorDay now)) * 86400),
    some (floorDay now + (5 - pyWeekday (floorDay now)) * 86400 + 86400),
    "Am Wochenende"⟩

/-- `App.get_week_range`: the current or the following Monday-to-Sunday
week. -/
def get_week_range (ts : String) (now : Int) : TimeRange :=
  if containsSub ts ("nächste") then
    ⟨"daily",
      some (floorDay now + (0 - pyWeekday (floorDay now)) * 86400 + 7 * 86400),
      some (floorDay now + (0 - pyWeekday (floorDay now)) * 86400 + 6 * 86400 + 7 * 86400),
      "Nächste Woche"⟩
  else
    ⟨"daily",
      some (floorDay now + (0 - pyWeekday (floorDay now)) * 86400),
      some (floorDay now + (0 - pyWeekday (floorDay now)) * 86400 + 6 * 86400),
      "Diese Woche"⟩

/-- `App.get_subrange`: the sequential keyword checks of the source, in the
source's order, where `"nachmittag"` is tested before `"mittag"`. Python
falls off the function (returns `None`) when no keyword is contained. -/
def get_subrange (ts : String) (epoch : Int) (pfx : String) : Option TimeRange :=
  if containsSub ts ("früh") then some (get_hour_range epoch 6 10 (pfx ++ " früh"))
  else if containsSub ts ("vormittag") then some (get_hour_range epoch 9 12 (pfx ++ " vormittag"))
  else if containsSub ts ("nachmittag") then some (get_hour_range epoch 14 17 (pfx ++ " nachmittag"))
  else if containsSub ts ("mittag") then some (get_hour_range epoch 11 14 (pfx ++ " mittag"))
  else if containsSub ts ("abend") then some (get_hour_range epoch 17 22 (pfx ++ " abend"))
  else if containsSub ts ("nacht") then some (get_hour_range epoch 22 (-1) (pfx ++ " nacht"))
  else none

/-- `App.get_timerange`: the ordered decision tree of the resolver. The
absent phrase is `none`; Python's falsy test also catches the empty
string. `none` as a result models the `TypeError` the caller would raise
when unpacking Python's implicit `None`. -/
def get_timerange (o : Option String) (now : Int) : Option TimeRange :=
  match o with
  | none => some ⟨"currently", none, none, "Jetzt"⟩
  | some ts =>
    if ts = "" then some ⟨"currently", none, none, "Jetzt"⟩
    else
      match weekdays.filter (fun d => containsSub ts d) with
      | d :: _ => some (get_weekday (weekdays.indexOf d) now)
      | [] =>
        if containsSub ts ("wochenende") || (containsSub ts ("woche") && containsSub ts ("ende")) then
          some (get_weekend_range now)
        else if containsSub ts ("woche") then
          some (get_week_range ts now)
        else if ts = "heute" then some (get_day_range now "Heute")
        else if ts = "morgen" then some (get_day_range (now + 86400) "Morgen")
        else if strEndsWith ts ("bermorgen") then some (get_day_range (now + 172800) "Übermorgen")
        else if !(day_range_symbols.filter (fun s => containsSub ts s)).isEmpty then
          if containsSub ts ("bermorgen") then get_subrange ts (now + 172800) "Übermorgen"
          else if containsSub ts ("morgen") then get_subrange ts (now + 86400) "Morgen"
          else get_subrange ts now "Heute"
        else some ⟨"currently", none, none, "Jetzt"⟩

/-- `App.select_weather`: current record for the `"currently"` scale, both
filtered series otherwise; `none` models the caught exception when a bound
is `None`. -/
def select_weather (w : ForecastPayload) (scale : String) (tfrom tto : Option Int) :
    Option WeatherSelection :=
  if scale = "currently" then some (WeatherSelection.current w.currently)
  else
    match tfrom, tto with
    | some a, some b =>
      some (WeatherSelection.ranged
        (w.hourly.filter (fun r => decide (a ≤ r.time) && decide (r.time ≤ b)))
        (w.daily.filter (fun r => decide (a ≤ r.time) && decide (r.time ≤ b))))
    | _, _ => none

/-- Negative answer of the `"currently"` rain/snow branch of
`App.process_has`. -/
def hasNegCurrent (what : PyStr) : String :=
  "Ich denke nicht, dass es gerade " ++ (if what.val = "rain" then "regnet." else "schneit.")

/-- The precipitation condition of the `hasRain` / `hasHail` / `hasThunder`
list comprehensions: `precipType` equals `what` (by `==`) with probability
above 0.3, both fields present. -/
def precipMatch (what : PyStr) (w : WeatherRecord) : Bool :=
  match w.precipType, w.precipProbability with
  | some p, some pr => p.val == what.val && decide (mkRat 3 10 < pr)
  | _, _ => false

/-- Membership condition of one of the three precipitation lists: the icon
matches, or `precipMatch` holds. -/
def precipHit (iconName : String) (what : PyStr) (w : WeatherRecord) : Bool :=
  w.icon.val == iconName || precipMatch what w

/-- `hasRain[0] if hasRain else (hasHail[0] if hasHail else hasThunder[0])`,
with `none` when all three lists are empty (the guard case). -/
def chosenPrecip (what : PyStr) (hours : List WeatherRecord) : Option WeatherRecord :=
  ((hours.filter (precipHit ("rain") what)).head?).orElse
    (fun _ => ((hours.filter (precipHit ("hail") what)).head?).orElse
      (fun _ => (hours.filter (precipHit ("thunderstorm") what)).head?))

/-- `'regnen.' if hasRain else ('hageln.' if hasHail else 'Gewitter geben.')`. -/
def precipVerb (what : PyStr) (hours : List WeatherRecord) : String :=
  if !(hours.filter (precipHit ("rain") what)).isEmpty then "regnen."
  else if !(hours.filter (precipHit ("hail") what)).isEmpty then "hageln."
  else "Gewitter geben."

/-- `hasSun[0] if hasSun else hasPartly[0]`, with `none` when both lists are
empty. -/
def sunChosen (hours : List WeatherRecord) : Option WeatherRecord :=
  ((hours.filter (fun w => w.icon.val == "clear-day")).head?).orElse
    (fun _ => hours.filter (fun w => w.icon.val == "partly-cloudy-day") |>.head?)

/-- `'sonnig.' if hasSun else 'ein bisschen Sonne geben.'`. -/
def sunVerb (hours : List WeatherRecord) : String :=
  if !(hours.filter (fun w => w.icon.val == "clear-day")).isEmpty then "sonnig."
  else "ein bisschen Sonne geben."

/-- `App.process_has`. Selection shapes that `select_weather` cannot pair
with the given scale (a current record with a ranged scale and vice versa)
raise in Python and are modelled as `none`. -/
def process_has (what : PyStr) (scale : String) (sel : WeatherSelection) (pfx : String) :
    Option String :=
  match sel with
  | .current w =>
    if scale = "currently" then
      if what.val = "sun" then
        if w.icon.val = "clear-day" then some ("Ja, es ist gerade sonnig.")
        else if containsSub w.icon.val ("cloudy") then
          some ("Nein, ist ist gerade " ++ (if !(pyIs w.icon litCloudy) then "eher " else "")
            ++ "bewölkt.")
        else some ("Nein, ich denke nicht.")
      else
        match w.precipType with
        | none => some (hasNegCurrent what)
        | some p =>
          if !(pyIs p what) then some (hasNegCurrent what)
          else
            match w.precipProbability with
            | none => some (hasNegCurrent what)
            | some pr =>
              if pr < mkRat 3 10 then some (hasNegCurrent what)
              else if pr < mkRat 3 4 then
                some ("Ja, es " ++ (if what.val = "rain" then "regnet gerade" else "schneit gerade")
                  ++ " vermutlich.")
              else
                some ("Ja, es " ++ (if what.val = "rain" then "regnet gerade." else "schneit gerade."))
    else none
  | .ranged hours days =>
    if scale = "currently" then none
    else if what.val = "sun" then
      match sunChosen hours with
      | none => some ("Nein, ich denke nicht.")
      | some w =>
        if scale = "hourly" then
          some ("Gegen " ++ fmtHM w.time ++ " wird es " ++ sunVerb hours)
        else if days.length = 1 then
          some (pfx ++ " wird es gegen " ++ fmtHM w.time ++ " " ++ sunVerb hours)
        else
          some ("Am " ++ capitalize (weekdayName w.time) ++ " wird es gegen " ++ fmtHM w.time
            ++ " " ++ sunVerb hours)
    else
      match chosenPrecip what hours with
      | none => some ("Nein, ich denke nicht.")
      | some w =>
        match w.precipProbability with
        | none => none
        | some pr =>
          if pr < mkRat 3 10 then some ("Nein, ich denke nicht.")
          else if scale = "hourly" then
            some ("Gegen " ++ fmtHM w.time ++ " wird es " ++ precipVerb what hours)
          else if days.length = 1 then
            some (pfx ++ " wird es " ++ precipVerb what hours)
          else
            some ("Am " ++ capitalize (weekdayName w.time) ++ " wird es"
              ++ (if pr < mkRat 3 4 then " vermutlich" else "") ++ " gegen " ++ fmtHM w.time ++ " "
              ++ precipVerb what hours)

/-- `App.process_temperature`. A ranged selection with scale `"currently"`
falls into the list branch in Python too (`'temperature' in weather` is a
membership test on the list); an empty hourly list raises in `min` and is
modelled as `none`. -/
def process_temperature (scale : String) (sel : WeatherSelection) (pfx : String) :
    Option String :=
  match sel with
  | .current w =>
    if scale = "currently" then
      some ("Es sind gerade " ++ toString (pyRound w.temperature) ++ " Grad.")
    else none
  | .ranged hours _ =>
    match hours with
    | [] => none
    | [w] => some (pfx ++ " wird es etwa " ++ toString (pyRound w.temperature) ++ " Grad warm.")
    | ws =>
      some (pfx ++ " wird es zwischen " ++ toString (pyRound (listMin (ws.map (fun w => w.temperature))))
        ++ " und " ++ toString (pyRound (listMax (ws.map (fun w => w.temperature)))) ++ " Grad warm.")

/-- The local `get_summary` of `App.process_forecast`: appends or strips the
trailing dot. -/
def get_summary (w : WeatherRecord) (removeDot : Bool) : String :=
  if !removeDot && !(strEndsWith w.summary (".")) then w.summary ++ "."
  else if removeDot && strEndsWith w.summary (".") then String.mk w.summary.data.dropLast
  else w.summary

/-- The local `get_wx_on` of `App.process_forecast`: the "Vermutlich ... am
..." clause with the list-join rule. -/
def get_wx_on (what : String) (data : List String) : String :=
  match data with
  | [x] => " Vermutlich " ++ what ++ " am " ++ x ++ "."
  | [] => ""
  | xs => " Vermutlich " ++ what ++ " am " ++ commaJoin xs.dropLast ++ " und " ++ xs.getLastD ("") ++ "."

/-- The weekday-name list comprehensions of the more-than-two-days branch of
`App.process_forecast`: capitalized weekday names of the days with the given
icon, the first day (`t0` is its time) excluded. -/
def wxDays (iconName : String) (t0 : Int) (days : List WeatherRecord) : List String :=
  (days.filter (fun w => w.icon.val == iconName && !(w.time == t0))).map
    (fun w => capitalize (weekdayName w.time))

/-- `App.process_forecast`. -/
def process_forecast (scale : String) (sel : WeatherSelection) (pfx : String) : Option String :=
  if scale = "currently" then
    match sel with
    | .current w =>
      some ("Das Wetter ist aktuell " ++ get_summary w false ++ " Temperatur liegt bei "
        ++ toString (pyRound w.temperature) ++ " Grad.")
    | .ranged _ _ => none
  else if scale = "daily" then
    match sel with
    | .current _ => none
    | .ranged _ days =>
      match days with
      | [] => none
      | [d] =>
        some ("Wetter " ++ pfx ++ ": " ++ get_summary d false ++ " Temperaturen zwischen "
          ++ toString (pyRound d.temperatureMin) ++ " und " ++ toString (pyRound d.temperatureMax)
          ++ " Grad.")
      | [d1, d2] =>
        if d1.summary = d2.summary then
          some ("Wetter am " ++ capitalize (weekdayName d1.time) ++ " und "
            ++ capitalize (weekdayName d2.time) ++ ": " ++ get_summary d1 false ++ " "
            ++ " Die Temperaturen liegen zwischen "
            ++ toString (pyRound (listMin [d1.temperatureMin, d2.temperatureMin])) ++ " und "
            ++ toString (pyRound (listMax [d1.temperatureMax, d2.temperatureMax])) ++ " Grad.")
        else
          some ("Wetter am " ++ capitalize (weekdayName d1.time) ++ ": " ++ get_summary d1 false
            ++ " " ++ capitalize (weekdayName d2.time) ++ " " ++ get_summary d2 false
            ++ " Die Temperaturen liegen zwischen "
            ++ toString (pyRound (listMin [d1.temperatureMin, d2.temperatureMin])) ++ " und "
            ++ toString (pyRound (listMax [d1.temperatureMax, d2.temperatureMax])) ++ " Grad.")
      | d :: ds =>
        some ("Wetter am " ++ capitalize (weekdayName d.time) ++ ": " ++ get_summary d false
          ++ get_wx_on ("Regen") (wxDays ("rain") d.time (d :: ds))
          ++ get_wx_on ("Schnee") (wxDays ("snow") d.time (d :: ds))
          ++ get_wx_on ("Gewitter") (wxDays ("thunderstorm") d.time (d :: ds))
          ++ " Temperaturen zwischen "
          ++ toString (pyRound (listMin ((d :: ds).map (fun w => w.temperatureMin)))) ++ " und "
          ++ toString (pyRound (listMax ((d :: ds).map (fun w => w.temperatureMax)))) ++ " Grad.")
  else
    match sel with
    | .current _ => none
    | .ranged hours _ =>
      match hours with
      | [] => none
      | h0 :: hs =>
        if h0.summary = ((h0 :: hs).getLastD h0).summary then
          some ("Wetter " ++ pfx ++ ": " ++ get_summary h0 false ++ " Temperaturen zwischen "
            ++ toString (pyRound (listMin ((h0 :: hs).map (fun w => w.temperature)))) ++ " und "
            ++ toString (pyRound (listMax ((h0 :: hs).map (fun w => w.temperature)))) ++ " Grad.")
        else
          some ("Wetter " ++ pfx ++ ": " ++ get_summary h0 true ++ " bis "
            ++ get_summary ((h0 :: hs).getLastD h0) false ++ " Temperaturen zwischen "
            ++ toString (pyRound (listMin ((h0 :: hs).map (fun w => w.temperature)))) ++ " und "
            ++ toString (pyRound (listMax ((h0 :: hs).map (fun w => w.temperature)))) ++ " Grad.")

/-- Python truthiness of `weather[0]`: a current record (a nonempty dict)
is truthy, a ranged first component is falsy when empty. -/
def weather0_falsy : WeatherSelection → Bool
  | .current _ => false
  | .ranged hours _ => hours.isEmpty

/-- Python truthiness of `not weather[1]`: `None` for a current selection
(falsy), the filtered daily list otherwise. -/
def weather1_falsy : WeatherSelection → Bool
  | .current _ => true
  | .ranged _ days => days.isEmpty

/-- `App.process_response`: resolver, selector, the falsy-guard, and the
intent dispatch. -/
def process_response (intent_name : String) (payload : ForecastPayload) (o : Option String)
    (now : Int) : Option String :=
  match get_timerange o now with
  | none => none
  | some tr =>
    match select_weather payload tr.scale tr.tfrom tr.tto with
    | none => none
    | some sel =>
      if weather0_falsy sel || (tr.scale == "daily" && weather1_falsy sel) then none
      else if intent_name = "s710:getForecast" then process_forecast tr.scale sel tr.pfx
      else if intent_name = "s710:getTemperature" then process_temperature tr.scale sel tr.pfx
      else if intent_name = "s710:hasRain" then process_has litRain tr.scale sel tr.pfx
      else if intent_name = "s710:hasSun" then process_has litSun tr.scale sel tr.pfx
      else if intent_name = "s710:hasSnow" then process_has litSnow tr.scale sel tr.pfx
      else none

/-- Disjunction of the guards of all resolver rules: a phrase matching no
rule falls through to the `"currently"` fallback exactly when this is
`false`. -/
def matchesSomeRule (ts : String) : Bool :=
  !(weekdays.filter (fun d => containsSub ts d)).isEmpty
  || containsSub ts ("wochenende") || (containsSub ts ("woche") && containsSub ts ("ende"))
  || containsSub ts ("woche")
  || (ts == "heute") || (ts == "morgen") || strEndsWith ts ("bermorgen")
  || !(day_range_symbols.filter (fun s => containsSub ts s)).isEmpty

/-- The keyword table of `App.get_subrange` in the order the source checks
it: `"nachmittag"` before `"mittag"`. Entries are keyword, start hour, end
hour (`-1` encoding 03:00 of the next day). -/
def subrangeOrder : List (String × Int × Int) :=
  [("früh", 6, 10), ("vormittag", 9, 12), ("nachmittag", 14, 17), ("mittag", 11, 14),
    ("abend", 17, 22), ("nacht", 22, -1)]

/-- The data-model invariant of the specification: a `"currently"` scale has
no bounds, and present bounds are ordered. -/
def rangeInv (tr : TimeRange) : Prop :=
  (tr.scale = "currently" → tr.tfrom = none ∧ tr.tto = none) ∧
  ∀ a b : Int, tr.tfrom = some a → tr.tto = some b → a ≤ b

/-- Current record of the C2 failing input: the payload is JSON-parsed, so
its `precipType` string `"rain"` is a distinct object from the interned code
literal `'rain'` even though the contents are equal. -/
def wBug : WeatherRecord :=
  ⟨0, "Regen", ⟨"rain", 101⟩, 10, 8, 12, some ⟨"rain", 100⟩, some (mkRat 4 5)⟩

/-- Daily record (a Thursday) for the C7 witness. -/
def dayRecA : WeatherRecord := ⟨0, "Klar.", ⟨"clear-day", 100⟩, 5, 2, 9, none, none⟩

/-- Daily record (a Friday) for the C7 witness. -/
def dayRecB : WeatherRecord := ⟨86400, "Klar.", ⟨"clear-day", 100⟩, 5, 1, 7, none, none⟩

/-- Hourly record with a rain icon and probability 0.5 for the C8 witness. -/
def wRain : WeatherRecord :=
  ⟨43200, "Regen", ⟨"rain", 102⟩, 10, 8, 12, some ⟨"rain", 103⟩, some (mkRat 1 2)⟩

/-- Hourly record with a rain icon but probability 0.1: matched by the
comprehensions, yet answered negatively (the C8 counterexample). -/
def wLowRain : WeatherRecord := ⟨43200, "Regen", ⟨"rain", 102⟩, 10, 8, 12, none, some (mkRat 1 10)⟩

/-- Hourly record lying outside the C10 witness range. -/
def wHourOut : WeatherRecord := ⟨0, "Klar.", ⟨"clear-day", 100⟩, 5, 2, 9, none, none⟩

/-- Daily record lying inside the C10 witness range (Monday noon). -/
def wDayIn : WeatherRecord := ⟨388800, "Klar.", ⟨"clear-day", 100⟩, 5, 2, 9, none, none⟩

/-- Payload whose hourly series misses the requested range while the daily
series hits it. -/
def payloadC10 : ForecastPayload := ⟨wHourOut, [wHourOut], [wDayIn]⟩

lemma floorDay_midnight (t k : Int) : floorDay (floorDay t + k * 86400) = floorDay t + k * 86400 := by
  unfold floorDay
  omega

lemma floorDay_add_day (t : Int) : floorDay (t + 86400) = floorDay t + 86400 := by
  unfold floorDay
  omega

lemma head_filter_eq_find {α : Type} (p : α → Bool) (l : List α) :
    (l.filter p).head? = l.find? p := by
  induction l with
  | nil => rfl
  | cons a t ih =>
    by_cases h : p a
    · simp [List.filter_cons, h, List.find?_cons, ih]
    · simp [List.filter_cons, h, List.find?_cons, ih]

/-- Claim C2 (code_bug): the source compares `weather['precipType'] is not
what` by object identity; a JSON-parsed `"rain"` value is a distinct object
from the interned literal, so even probability 0.8 with a contents-equal
`precipType` yields the negative answer, where the claim demands the
unqualified affirmative one. -/
theorem C2_code_bug :
    wBug.precipType.map PyStr.val = some ("rain") ∧
    wBug.precipProbability = some (mkRat 4 5) ∧
    (mkRat 3 4 ≤ mkRat 4 5) ∧
    pyIs (⟨"rain", 100⟩ : PyStr) litRain = false ∧
    process_has litRain "currently" (WeatherSelection.current wBug) "Jetzt"
      = some ("Ich denke nicht, dass es gerade regnet.") := by
  refine ⟨rfl, rfl, by norm_num, by decide, by decide⟩

/-- Claim C3 counterexample: for the phrase "heute nachmittag" the first
day-range keyword in canonical list order is "mittag", but the resolver
returns the nachmittag range 14:00 to 17:00, not the mittag range 11:00 to
14:00 the claim predicts. -/
theorem C3_counterexample :
    day_range_symbols.find? (fun s => containsSub ("heute nachmittag") s) = some ("mittag") ∧
    get_timerange (some ("heute nachmittag")) 0
      = some ⟨"hourly", some 50400, some 61200, "Heute nachmittag"⟩ ∧
    get_timerange (some ("heute nachmittag")) 0
      ≠ some ⟨"hourly", some 39600, some 50400, "Heute mittag"⟩ := by
  refine ⟨by decide, by decide, by decide⟩

/-- Claim C3 (amended): the keyword used to pick the hour sub-range is the
first one found in the order in which `get_subrange` tests the keywords,
which is früh, vormittag, nachmittag, mittag, abend, nacht — nachmittag
before mittag, not the canonical list order. -/
theorem C3_first_in_check_order (ts : String) (epoch : Int) (pfx : String) :
    get_subrange ts epoch pfx
      = (subrangeOrder.find? (fun q => containsSub ts q.1)).map
          (fun q => get_hour_range epoch q.2.1 q.2.2 (pfx ++ (" " ++ q.1))) := by
  by_cases h1 : containsSub ts ("früh") <;>
    by_cases h2 : containsSub ts ("vormittag") <;>
      by_cases h3 : containsSub ts ("nachmittag") <;>
        by_cases h4 : containsSub ts ("mittag") <;>
          by_cases h5 : containsSub ts ("abend") <;>
            by_cases h6 : containsSub ts ("nacht") <;>
              simp [get_subrange, subrangeOrder, List.find?, h1, h2, h3, h4, h5, h6]

/-- Claim C1 counterexample: the phrase "montag oder dienstag" contains the
weekday name "dienstag", yet the resolver (at `now` equal to 0, a Thursday)
returns next Monday's range, not next Tuesday's range the claim predicts
for that contained weekday. -/
theorem C1_counterexample :
    containsSub ("montag oder dienstag") ("dienstag") = true ∧
    get_timerange (some ("montag oder dienstag")) 0
      = some ⟨"daily", some 345600, some 431999, "am Montag"⟩ ∧
    get_timerange (some ("montag oder dienstag")) 0
      ≠ some ⟨"daily", some 432000, some 518399, "am Dienstag"⟩ := by
  refine ⟨by decide, by decide, by decide⟩

lemma mem_weekdays_of_filter_cons {ts d : String} {tl : List String}
    (h : weekdays.filter (fun x => containsSub ts x) = d :: tl) : d ∈ weekdays := by
  have hd : d ∈ weekdays.filter (fun x => containsSub ts x) := by
    rw [h]
    exact List.mem_cons_self d tl
  exact List.mem_of_mem_filter hd

lemma weekdays_getD_indexOf {d : String} (hmem : d ∈ weekdays) :
    weekdays.getD (weekdays.indexOf d) ("") = d := by
  unfold weekdays at hmem
  fin_cases hmem <;> rfl

lemma weekdays_indexOf_lt {d : String} (hmem : d ∈ weekdays) : weekdays.indexOf d < 7 := by
  unfold weekdays at hmem
  fin_cases hmem <;> decide

lemma get_timerange_weekday_branch {ts d : String} {tl : List String} (now : Int)
    (hts : ¬ ts = "") (h : weekdays.filter (fun x => containsSub ts x) = d :: tl) :
    get_timerange (some ts) now = some (get_weekday (weekdays.indexOf d) now) := by
  simp only [get_timerange, if_neg hts, h]

/-- Claim C1 (amended): for every phrase and now, when the FIRST weekday
name in list order montag..sonntag contained in the phrase is `d` (rather
than for every contained weekday name), the resolver returns scale Daily
with the interval covering the next future occurrence of `d`, today
excluded: the start `f` is a midnight, its weekday index is that of `d`,
it lies strictly after today's midnight and at most 7 days later (hence is
7 days later exactly when now falls on that weekday), the interval is that
day's 00:00:00 to 23:59:59, and the prefix is "am <Weekday>". -/
theorem C1_first_weekday (ts : String) (now : Int) (d : String) (tl : List String)
    (h : weekdays.filter (fun x => containsSub ts x) = d :: tl) :
    ∃ f : Int,
      get_timerange (some ts) now
        = some ⟨"daily", some f, some (f + 86399), "am " ++ capitalize d⟩ ∧
      f % 86400 = 0 ∧
      pyWeekday f = (weekdays.indexOf d : Int) ∧
      floorDay now < f ∧
      f ≤ floorDay now + 7 * 86400 ∧
      (pyWeekday now = (weekdays.indexOf d : Int) → f = floorDay now + 7 * 86400) := by
  have hmem := mem_weekdays_of_filter_cons h
  have hlt := weekdays_indexOf_lt hmem
  have hts : ¬ ts = "" := by
    intro he
    subst he
    rw [show weekdays.filter (fun x => containsSub "" x) = [] by decide] at h
    cases h
  have hbr := get_timerange_weekday_branch now hts h
  refine ⟨floorDay now + weekdayOffset (weekdays.indexOf d) (floorDay now) * 86400,
    ?_, ?_, ?_, ?_, ?_, ?_⟩
  · rw [hbr]
    unfold get_weekday
    rw [weekdays_getD_indexOf hmem]
    have h2 : setTime (floorDay now + weekdayOffset (weekdays.indexOf d) (floorDay now) * 86400)
          23 59 59
        = floorDay now + weekdayOffset (weekdays.indexOf d) (floorDay now) * 86400 + 86399 := by
      unfold setTime
      rw [floorDay_midnight]
      ring
    rw [h2]
  · unfold weekdayOffset pyWeekday floorDay
    split <;> omega
  · unfold weekdayOffset pyWeekday floorDay
    split <;> omega
  · unfold weekdayOffset pyWeekday floorDay
    split <;> omega
  · unfold weekdayOffset pyWeekday floorDay
    split <;> omega
  · unfold weekdayOffset pyWeekday floorDay
    split <;> omega

/-- Witness for C1: phrase "montag" at now equal to 0 (a Thursday). -/
theorem C1_witness :
    ∃ f : Int,
      get_timerange (some ("montag")) 0
        = some ⟨"daily", some f, some (f + 86399), "am " ++ capitalize ("montag")⟩ ∧
      f % 86400 = 0 ∧
      pyWeekday f = (weekdays.indexOf ("montag") : Int) ∧
      floorDay 0 < f ∧
      f ≤ floorDay 0 + 7 * 86400 ∧
      (pyWeekday 0 = (weekdays.indexOf ("montag") : Int) → f = floorDay 0 + 7 * 86400) :=
  C1_first_weekday ("montag") 0 ("montag") [] (by decide)

/-- Claim C4 counterexample: the phrase "samstagnacht" contains the
day-range keyword "nacht", yet the resolver returns a Daily range (the
weekday rule fires first on the contained "samstag"), not an Hourly one. -/
theorem C4_counterexample :
    containsSub ("samstagnacht") ("nacht") = true ∧
    (get_timerange (some ("samstagnacht")) 0).map TimeRange.scale = some ("daily") ∧
    ¬ (get_timerange (some ("samstagnacht")) 0).map TimeRange.scale = some ("hourly") := by
  refine ⟨by decide, by decide, by decide⟩

/-- Claim C4 (amended): for every phrase containing "nacht" that actually
reaches the night rule — it contains no weekday name, no week keyword, does
not end with "bermorgen", and contains none of the earlier-checked day-range
keywords früh, vormittag, nachmittag, mittag, abend — the resolver returns
scale Hourly with the interval from 22:00 of the resolved base day to 03:00
of the following day, so the end is after the start and the end day is one
day after the start day. -/
theorem C4_nacht (ts : String) (now : Int)
    (hn : containsSub ts ("nacht") = true)
    (hw : weekdays.filter (fun x => containsSub ts x) = [])
    (hwo : containsSub ts ("wochenende") = false)
    (hwe : containsSub ts ("woche") = false)
    (hub : strEndsWith ts ("bermorgen") = false)
    (h1 : containsSub ts ("früh") = false)
    (h2 : containsSub ts ("vormittag") = false)
    (h3 : containsSub ts ("nachmittag") = false)
    (h4 : containsSub ts ("mittag") = false)
    (h5 : containsSub ts ("abend") = false) :
    ∃ e f t : Int,
      e = (if containsSub ts ("bermorgen") then now + 172800
           else if containsSub ts ("morgen") then now + 86400 else now) ∧
      get_timerange (some ts) now
        = some ⟨"hourly", some f, some t,
            (if containsSub ts ("bermorgen") then "Übermorgen"
             else if containsSub ts ("morgen") then "Morgen" else "Heute") ++ " nacht"⟩ ∧
      f = floorDay e + 22 * 3600 ∧
      t = floorDay e + 86400 + 3 * 3600 ∧
      f < t ∧
      t / 86400 = f / 86400 + 1 := by
  have hts : ¬ ts = "" := by
    intro he
    subst he
    exact absurd hn (by decide)
  have hheu : ¬ ts = "heute" := by
    intro he
    subst he
    exact absurd hn (by decide)
  have hmor : ¬ ts = "morgen" := by
    intro he
    subst he
    exact absurd hn (by decide)
  have hsym : (day_range_symbols.filter (fun s => containsSub ts s)).isEmpty = false := by
    have hmemf : "nacht" ∈ day_range_symbols.filter (fun s => containsSub ts s) :=
      List.mem_filter.mpr ⟨by decide, hn⟩
    cases hfe : day_range_symbols.filter (fun s => containsSub ts s) with
    | nil => rw [hfe] at hmemf; cases hmemf
    | cons a l => rfl
  have hsub : ∀ (e : Int) (pfx : String),
      get_subrange ts e pfx = some (get_hour_range e 22 (-1) (pfx ++ " nacht")) := by
    intro e pfx
    simp [get_subrange, h1, h2, h3, h4, h5, hn]
  refine ⟨(if containsSub ts ("bermorgen") then now + 172800
           else if containsSub ts ("morgen") then now + 86400 else now),
    floorDay (if containsSub ts ("bermorgen") then now + 172800
              else if containsSub ts ("morgen") then now + 86400 else now) + 22 * 3600,
    floorDay (if containsSub ts ("bermorgen") then now + 172800
              else if containsSub ts ("morgen") then now + 86400 else now) + 86400 + 3 * 3600,
    rfl, ?_, rfl, rfl, ?_, ?_⟩
  · simp only [get_timerange, if_neg hts, hw]
    rw [if_neg (by simp [hwo, hwe]), if_neg (by simp [hwe]), if_neg hheu, if_neg hmor,
      if_neg (by simp [hub]), if_pos (by simp [hsym])]
    by_cases hb : containsSub ts ("bermorgen") = true
    · simp only [hb, if_pos]
      rw [hsub]
      simp only [get_hour_range, setTime, floorDay_add_day, eq_self_iff_true, if_true,
        Option.some.injEq, TimeRange.mk.injEq, true_and, and_true]
      and_intros <;> first | rfl | omega
    · have hb' : containsSub ts ("bermorgen") = false := by
        cases hx : containsSub ts ("bermorgen")
        · rfl
        · exact absurd hx hb
      by_cases hm : containsSub ts ("morgen") = true
      · simp only [hb', hm, Bool.false_eq_true, if_false, if_pos]
        rw [hsub]
        simp only [get_hour_range, setTime, floorDay_add_day, eq_self_iff_true, if_true,
          Option.some.injEq, TimeRange.mk.injEq, true_and, and_true]
        and_intros <;> first | rfl | omega
      · have hm' : containsSub ts ("morgen") = false := by
          cases hx : containsSub ts ("morgen")
          · rfl
          · exact absurd hx hm
        simp only [hb', hm', Bool.false_eq_true, if_false]
        rw [hsub]
        simp only [get_hour_range, setTime, floorDay_add_day, eq_self_iff_true, if_true,
          Option.some.injEq, TimeRange.mk.injEq, true_and, and_true]
        and_intros <;> first | rfl | omega
  · unfold floorDay
    omega
  · unfold floorDay
    omega

/-- Witness for C4: phrase "nacht" at now equal to Monday 10:00. -/
theorem C4_witness :
    ∃ e f t : Int,
      e = (if containsSub ("nacht") ("bermorgen") then 381600 + 172800
           else if containsSub ("nacht") ("morgen") then 381600 + 86400 else 381600) ∧
      get_timerange (some ("nacht")) 381600
        = some ⟨"hourly", some f, some t,
            (if containsSub ("nacht") ("bermorgen") then "Übermorgen"
             else if containsSub ("nacht") ("morgen") then "Morgen" else "Heute") ++ " nacht"⟩ ∧
      f = floorDay e + 22 * 3600 ∧
      t = floorDay e + 86400 + 3 * 3600 ∧
      f < t ∧
      t / 86400 = f / 86400 + 1 :=
  C4_nacht ("nacht") 381600 (by decide) (by decide) (by decide) (by decide) (by decide)
    (by decide) (by decide) (by decide) (by decide) (by decide)

/-- Claim C5 (confirmed): for the absent phrase (None or the empty string)
and for every phrase matching no resolver rule, the resolver succeeds and
returns exactly the Currently range with no bounds and prefix "Jetzt". -/
theorem C5_fallback (o : Option String) (now : Int)
    (h : o = none ∨ o = some "" ∨ ∃ ts, o = some ts ∧ matchesSomeRule ts = false) :
    get_timerange o now = some ⟨"currently", none, none, "Jetzt"⟩ := by
  rcases h with rfl | rfl | ⟨ts, rfl, hm⟩
  · rfl
  · rfl
  · by_cases hts : ts = ""
    · subst hts
      rfl
    · have hw : weekdays.filter (fun x => containsSub ts x) = [] := by
        cases hfe : weekdays.filter (fun x => containsSub ts x) with
        | nil => rfl
        | cons a l =>
          exfalso
          rw [matchesSomeRule, hfe] at hm
          simp at hm
      have hwo : containsSub ts ("wochenende") = false := by
        cases hfe : containsSub ts ("wochenende") with
        | false => rfl
        | true =>
          exfalso
          rw [matchesSomeRule, hfe] at hm
          simp at hm
      have hwe : containsSub ts ("woche") = false := by
        cases hfe : containsSub ts ("woche") with
        | false => rfl
        | true =>
          exfalso
          rw [matchesSomeRule, hfe] at hm
          simp at hm
      have hheu : ¬ ts = "heute" := by
        intro he
        rw [matchesSomeRule, he] at hm
        simp at hm
      have hmor : ¬ ts = "morgen" := by
        intro he
        rw [matchesSomeRule, he] at hm
        simp at hm
      have hub : strEndsWith ts ("bermorgen") = false := by
        cases hfe : strEndsWith ts ("bermorgen") with
        | false => rfl
        | true =>
          exfalso
          rw [matchesSomeRule, hfe] at hm
          simp at hm
      have hd : (day_range_symbols.filter (fun s => containsSub ts s)).isEmpty = true := by
        cases hfe : (day_range_symbols.filter (fun s => containsSub ts s)).isEmpty with
        | true => rfl
        | false =>
          exfalso
          rw [matchesSomeRule, hfe] at hm
          simp at hm
      simp only [get_timerange, if_neg hts, hw]
      rw [if_neg (by simp [hwo, hwe]), if_neg (by simp [hwe]), if_neg hheu, if_neg hmor,
        if_neg (by simp [hub]), if_neg (by simp [hd])]

/-- Witness for C5: an unrecognized phrase. -/
theorem C5_witness :
    get_timerange (some ("hallo welt")) 0 = some ⟨"currently", none, none, "Jetzt"⟩ :=
  C5_fallback (some ("hallo welt")) 0 (Or.inr (Or.inr ⟨"hallo welt", rfl, by decide⟩))

/-- Claim C6 (confirmed): with scale Currently the selector returns the
current record with no day list; with scale Hourly or Daily and present
bounds it returns exactly the hourly records inside the closed interval
together with the daily series filtered by the same bounds, both as
order-preserving sublists of their source series (hence preserving the
ascending time order of the payload). -/
theorem C6_select (p : ForecastPayload) (scale : String) (a b : Int) (tf tt : Option Int)
    (hs : scale = "hourly" ∨ scale = "daily") :
    select_weather p "currently" tf tt = some (WeatherSelection.current p.currently) ∧
    ∃ hours days,
      select_weather p scale (some a) (some b) = some (WeatherSelection.ranged hours days) ∧
      (∀ r, r ∈ hours ↔ r ∈ p.hourly ∧ a ≤ r.time ∧ r.time ≤ b) ∧
      (∀ r, r ∈ days ↔ r ∈ p.daily ∧ a ≤ r.time ∧ r.time ≤ b) ∧
      hours.Sublist p.hourly ∧ days.Sublist p.daily ∧
      (p.hourly.Pairwise (fun x y => x.time ≤ y.time) →
        hours.Pairwise (fun x y => x.time ≤ y.time)) ∧
      (p.daily.Pairwise (fun x y => x.time ≤ y.time) →
        days.Pairwise (fun x y => x.time ≤ y.time)) := by
  have hnc : ¬ scale = "currently" := by
    rcases hs with h | h <;> subst h <;> decide
  constructor
  · rfl
  · refine ⟨p.hourly.filter (fun r => decide (a ≤ r.time) && decide (r.time ≤ b)),
      p.daily.filter (fun r => decide (a ≤ r.time) && decide (r.time ≤ b)), ?_, ?_, ?_, ?_, ?_, ?_, ?_⟩
    · rw [select_weather, if_neg hnc]
    · intro r
      simp [List.mem_filter]
    · intro r
      simp [List.mem_filter]
    · exact List.filter_sublist p.hourly
    · exact List.filter_sublist p.daily
    · intro hp
      exact hp.sublist (List.filter_sublist p.hourly)
    · intro hp
      exact hp.sublist (List.filter_sublist p.daily)

/-- Witness for C6: a small payload, scale "hourly", bounds 0 and 100000. -/
theorem C6_witness :
    select_weather payloadC10 "currently" none none
      = some (WeatherSelection.current payloadC10.currently) ∧
    ∃ hours days,
      select_weather payloadC10 "hourly" (some 0) (some 100000)
        = some (WeatherSelection.ranged hours days) ∧
      (∀ r, r ∈ hours ↔ r ∈ payloadC10.hourly ∧ 0 ≤ r.time ∧ r.time ≤ 100000) ∧
      (∀ r, r ∈ days ↔ r ∈ payloadC10.daily ∧ 0 ≤ r.time ∧ r.time ≤ 100000) ∧
      hours.Sublist payloadC10.hourly ∧ days.Sublist payloadC10.daily ∧
      (payloadC10.hourly.Pairwise (fun x y => x.time ≤ y.time) →
        hours.Pairwise (fun x y => x.time ≤ y.time)) ∧
      (payloadC10.daily.Pairwise (fun x y => x.time ≤ y.time) →
        days.Pairwise (fun x y => x.time ≤ y.time)) :=
  C6_select payloadC10 "hourly" 0 100000 none none (Or.inl rfl)

/-- Claim C7 (confirmed): on exactly two daily records, equal summaries
produce a single clause naming both weekday names with one combined range
from the smaller temperatureMin to the larger temperatureMax; differing
summaries produce two clauses, each named by its weekday, followed by the
same combined range. -/
theorem C7_two_days (d1 d2 : WeatherRecord) (hours : List WeatherRecord) (pfx : String) :
    (d1.summary = d2.summary →
      process_forecast "daily" (WeatherSelection.ranged hours [d1, d2]) pfx
        = some ("Wetter am " ++ capitalize (weekdayName d1.time) ++ " und "
            ++ capitalize (weekdayName d2.time) ++ ": " ++ get_summary d1 false ++ " "
            ++ " Die Temperaturen liegen zwischen "
            ++ toString (pyRound (min d1.temperatureMin d2.temperatureMin)) ++ " und "
            ++ toString (pyRound (max d1.temperatureMax d2.temperatureMax)) ++ " Grad.")) ∧
    (¬ d1.summary = d2.summary →
      process_forecast "daily" (WeatherSelection.ranged hours [d1, d2]) pfx
        = some ("Wetter am " ++ capitalize (weekdayName d1.time) ++ ": " ++ get_summary d1 false
            ++ " " ++ capitalize (weekdayName d2.time) ++ " " ++ get_summary d2 false
            ++ " Die Temperaturen liegen zwischen "
            ++ toString (pyRound (min d1.temperatureMin d2.temperatureMin)) ++ " und "
            ++ toString (pyRound (max d1.temperatureMax d2.temperatureMax)) ++ " Grad.")) := by
  constructor
  · intro h
    simp [process_forecast, h, listMin, listMax]
  · intro h
    simp [process_forecast, h, listMin, listMax]

/-- Witness for C7: two records with equal summaries on a Thursday and a
Friday. -/
theorem C7_witness :
    process_forecast "daily" (WeatherSelection.ranged [] [dayRecA, dayRecB]) "Heute"
      = some ("Wetter am Donnerstag und Freitag: Klar.  Die Temperaturen liegen zwischen 1 und 9 Grad.") := by
  rw [(C7_two_days dayRecA dayRecB [] "Heute").1 rfl]
  decide

lemma rangeInv_jetzt : rangeInv ⟨"currently", none, none, "Jetzt"⟩ := by
  constructor
  · intro _
    exact ⟨rfl, rfl⟩
  · intro a b ha hb
    cases ha

lemma rangeInv_get_weekday (i : Nat) (now : Int) : rangeInv (get_weekday i now) := by
  constructor
  · intro h
    exact absurd h (show ¬ ("daily" : String) = "currently" from by decide)
  · intro a b ha hb
    simp only [get_weekday, Option.some.injEq] at ha hb
    subst ha
    subst hb
    unfold setTime
    rw [floorDay_midnight]
    omega

lemma rangeInv_get_day_range (e : Int) (p : String) : rangeInv (get_day_range e p) := by
  constructor
  · intro h
    exact absurd h (show ¬ ("daily" : String) = "currently" from by decide)
  · intro a b ha hb
    simp only [get_day_range, Option.some.injEq] at ha hb
    subst ha
    subst hb
    unfold setTime
    omega

lemma rangeInv_get_hour_range {e : Int} {p : String} {h1 h2 : Int}
    (hc : h2 = -1 ∨ h1 ≤ h2) (hle : h1 ≤ 24) : rangeInv (get_hour_range e h1 h2 p) := by
  constructor
  · intro h
    exact absurd h (show ¬ ("hourly" : String) = "currently" from by decide)
  · intro a b ha hb
    simp only [get_hour_range, Option.some.injEq] at ha hb
    subst ha
    subst hb
    split
    · unfold setTime
      rw [floorDay_add_day]
      unfold floorDay
      omega
    · rcases hc with h2eq | hle2
      · exact absurd h2eq (by assumption)
      · unfold setTime
        omega

lemma rangeInv_get_weekend (now : Int) : rangeInv (get_weekend_range now) := by
  constructor
  · intro h
    exact absurd h (show ¬ ("daily" : String) = "currently" from by decide)
  · intro a b ha hb
    simp only [get_weekend_range, Option.some.injEq] at ha hb
    subst ha
    subst hb
    omega

lemma rangeInv_get_week (ts : String) (now : Int) : rangeInv (get_week_range ts now) := by
  unfold get_week_range
  split <;>
    (constructor
     · intro h
       exact absurd h (show ¬ ("daily" : String) = "currently" from by decide)
     · intro a b ha hb
       simp only [Option.some.injEq] at ha hb
       subst ha
       subst hb
       omega)

lemma rangeInv_get_subrange {ts : String} {e : Int} {p : String} {tr : TimeRange}
    (h : get_subrange ts e p = some tr) : rangeInv tr := by
  unfold get_subrange at h
  repeat' split at h
  · injection h with h
    subst h
    exact rangeInv_get_hour_range (Or.inr (by norm_num)) (by norm_num)
  · injection h with h
    subst h
    exact rangeInv_get_hour_range (Or.inr (by norm_num)) (by norm_num)
  · injection h with h
    subst h
    exact rangeInv_get_hour_range (Or.inr (by norm_num)) (by norm_num)
  · injection h with h
    subst h
    exact rangeInv_get_hour_range (Or.inr (by norm_num)) (by norm_num)
  · injection h with h
    subst h
    exact rangeInv_get_hour_range (Or.inr (by norm_num)) (by norm_num)
  · injection h with h
    subst h
    exact rangeInv_get_hour_range (Or.inl rfl) (by norm_num)
  · exact Option.noConfusion h

/-- Claim C9 (confirmed): every TimeRange the resolver produces satisfies
the data-model invariant: a Currently result carries no bounds, and
whenever both bounds are present the start is at most the end — across the
weekday, weekend, week, whole-day and hour-range rules including the
midnight-crossing nacht range. -/
theorem C9_range_invariant (o : Option String) (now : Int) (tr : TimeRange)
    (h : get_timerange o now = some tr) :
    (tr.scale = "currently" → tr.tfrom = none ∧ tr.tto = none) ∧
    ∀ a b : Int, tr.tfrom = some a → tr.tto = some b → a ≤ b := by
  have hinv : rangeInv tr := by
    cases o with
    | none =>
      injection h with h
      subst h
      exact rangeInv_jetzt
    | some ts =>
      simp only [get_timerange] at h
      split at h
      · injection h with h
        subst h
        exact rangeInv_jetzt
      · split at h
        · injection h with h
          subst h
          exact rangeInv_get_weekday _ _
        · split at h
          · injection h with h
            subst h
            exact rangeInv_get_weekend _
          · split at h
            · injection h with h
              subst h
              exact rangeInv_get_week _ _
            · split at h
              · injection h with h
                subst h
                exact rangeInv_get_day_range _ _
              · split at h
                · injection h with h
                  subst h
                  exact rangeInv_get_day_range _ _
                · split at h
                  · injection h with h
                    subst h
                    exact rangeInv_get_day_range _ _
                  · split at h
                    · split at h
                      · exact rangeInv_get_subrange h
                      · split at h
                        · exact rangeInv_get_subrange h
                        · exact rangeInv_get_subrange h
                    · injection h with h
                      subst h
                      exact rangeInv_jetzt
  exact hinv

/-- Witness for C9: the "heute" range at now equal to 0. -/
theorem C9_witness :
    ((⟨"daily", some 0, some 86399, "Heute"⟩ : TimeRange).scale = "currently" →
      (⟨"daily", some 0, some 86399, "Heute"⟩ : TimeRange).tfrom = none ∧
      (⟨"daily", some 0, some 86399, "Heute"⟩ : TimeRange).tto = none) ∧
    ∀ a b : Int, (⟨"daily", some 0, some 86399, "Heute"⟩ : TimeRange).tfrom = some a →
      (⟨"daily", some 0, some 86399, "Heute"⟩ : TimeRange).tto = some b → a ≤ b :=
  C9_range_invariant (some ("heute")) 0 ⟨"daily", some 0, some 86399, "Heute"⟩ (by decide)

/-- Claim C10 (confirmed): for every non-Currently resolved range, when the
hourly series filtered by the range bounds is empty, `process_response`
returns no answer for every intent, even when the daily series does contain
matching records (exhibited by the witness). -/
theorem C10_empty_hours (intent_name : String) (payload : ForecastPayload) (o : Option String)
    (now : Int) (tr : TimeRange) (a b : Int)
    (h : get_timerange o now = some tr)
    (hs : tr.scale = "hourly" ∨ tr.scale = "daily")
    (hf : tr.tfrom = some a) (ht : tr.tto = some b)
    (he : payload.hourly.filter (fun r => decide (a ≤ r.time) && decide (r.time ≤ b)) = []) :
    process_response intent_name payload o now = none := by
  have hnc : ¬ tr.scale = "currently" := by
    rcases hs with h' | h' <;> rw [h'] <;> decide
  have hsel : select_weather payload tr.scale tr.tfrom tr.tto
      = some (WeatherSelection.ranged ([])
          (payload.daily.filter (fun r => decide (a ≤ r.time) && decide (r.time ≤ b)))) := by
    rw [hf, ht, select_weather, if_neg hnc, he]
  simp only [process_response, h, hsel]
  simp [weather0_falsy]

/-- Witness for C10: the phrase "montag" at now 0 resolves to the Daily
range of next Monday; the payload's daily series has a record inside the
range while the filtered hourly series is empty, and the forecast intent
produces no answer. -/
theorem C10_witness :
    payloadC10.daily.filter
        (fun r => decide ((345600 : Int) ≤ r.time) && decide (r.time ≤ (431999 : Int)))
      = [wDayIn] ∧
    process_response "s710:getForecast" payloadC10 (some ("montag")) 0 = none :=
  ⟨by decide,
    C10_empty_hours "s710:getForecast" payloadC10 (some ("montag")) 0
      ⟨"daily", some 345600, some 431999, "am Montag"⟩ 345600 431999 (by decide)
      (Or.inr rfl) rfl rfl (by decide)⟩

/-- Claim C8 counterexample: one hourly record with the rain icon but
precipProbability 0.1 is matched by the scan (icon match), yet the handler
answers "Nein, ich denke nicht." instead of reporting the match as the
claim demands. -/
theorem C8_counterexample :
    precipHit ("rain") litRain wLowRain = true ∧
    process_has litRain "hourly" (WeatherSelection.ranged [wLowRain] []) "Heute"
      = some ("Nein, ich denke nicht.") ∧
    ¬ process_has litRain "hourly" (WeatherSelection.ranged [wLowRain] []) "Heute"
      = some ("Gegen " ++ fmtHM wLowRain.time ++ " wird es regnen.") := by
  refine ⟨by decide, by decide, by decide⟩

/-- Claim C8 (amended): for Hourly and Daily scales the rain/snow handler
picks the first record matching the phenomenon (icon match, or precipType
equal to the phenomenon with probability above 0.3), checking the rain
icon, hail icon, then thunderstorm icon in that priority. If no record
matches the answer is "Nein, ich denke nicht."; if the selected record
carries a precipProbability below 0.3 the answer is also "Nein, ich denke
nicht."; if it carries none the handler fails with no answer; otherwise the
match is reported with its time of day for Hourly scale, with the
day-qualifying prefix when the Daily selection contains exactly one day,
and with its weekday name for Daily selections spanning any other number
of days. -/
theorem C8_ranged_precip (what : PyStr) (hours days : List WeatherRecord) (pfx : String)
    (scale : String) (hwhat : what.val = "rain" ∨ what.val = "snow")
    (hscale : scale = "hourly" ∨ scale = "daily") :
    chosenPrecip what hours
      = (hours.find? (precipHit ("rain") what)).orElse
          (fun _ => (hours.find? (precipHit ("hail") what)).orElse
            (fun _ => hours.find? (precipHit ("thunderstorm") what))) ∧
    (chosenPrecip what hours = none →
      process_has what scale (WeatherSelection.ranged hours days) pfx
        = some ("Nein, ich denke nicht.")) ∧
    ∀ w, chosenPrecip what hours = some w →
      (w.precipProbability = none →
        process_has what scale (WeatherSelection.ranged hours days) pfx = none) ∧
      ∀ pr : ℚ, w.precipProbability = some pr →
        (pr < mkRat 3 10 →
          process_has what scale (WeatherSelection.ranged hours days) pfx
            = some ("Nein, ich denke nicht.")) ∧
        (mkRat 3 10 ≤ pr →
          (scale = "hourly" →
            process_has what scale (WeatherSelection.ranged hours days) pfx
              = some ("Gegen " ++ fmtHM w.time ++ " wird es " ++ precipVerb what hours)) ∧
          (scale = "daily" → days.length = 1 →
            process_has what scale (WeatherSelection.ranged hours days) pfx
              = some (pfx ++ " wird es " ++ precipVerb what hours)) ∧
          (scale = "daily" → ¬ days.length = 1 →
            process_has what scale (WeatherSelection.ranged hours days) pfx
              = some ("Am " ++ capitalize (weekdayName w.time) ++ " wird es"
                  ++ (if pr < mkRat 3 4 then " vermutlich" else "") ++ " gegen "
                  ++ fmtHM w.time ++ " " ++ precipVerb what hours))) := by
  have hnc : ¬ scale = "currently" := by
    rcases hscale with h | h <;> subst h <;> decide
  have hnsun : ¬ what.val = "sun" := by
    rcases hwhat with h | h <;> rw [h] <;> decide
  refine ⟨?_, ?_, ?_⟩
  · unfold chosenPrecip
    rw [head_filter_eq_find, head_filter_eq_find, head_filter_eq_find]
  · intro hnone
    simp [process_has, hnc, hnsun, hnone]
  · intro w hw
    constructor
    · intro hpn
      simp [process_has, hnc, hnsun, hw, hpn]
    · intro pr hpr
      constructor
      · intro hlt
        simp [process_has, hnc, hnsun, hw, hpr, hlt]
      · intro hge
        have hnlt : ¬ pr < mkRat 3 10 := not_lt.mpr hge
        refine ⟨?_, ?_, ?_⟩
        · intro hsc
          subst hsc
          simp [process_has, hnsun, hw, hpr, hnlt]
        · intro hsc hd1
          subst hsc
          simp [process_has, hnsun, hw, hpr, hnlt, hd1]
        · intro hsc hdn
          subst hsc
          simp [process_has, hnsun, hw, hpr, hnlt, hdn]

/-- Witness for C8: a single hourly rain-icon record with probability 0.5
at 12:00 is reported with its time of day. -/
theorem C8_witness :
    process_has litRain "hourly" (WeatherSelection.ranged [wRain] []) "Heute"
      = some ("Gegen 12:00 Uhr wird es regnen.") := by
  have h := ((((C8_ranged_precip litRain [wRain] [] "Heute" "hourly" (Or.inl rfl)
    (Or.inl rfl)).2.2 wRain (by decide)).2 (mkRat 1 2) (by decide)).2 (by decide)).1 rfl
  rw [h]
  decide
